import Mathlib

/-!
Verification of the rustyguard WireGuard core against its specification.

The repository (lu-zero/rustyguard) contains two parallel skeletons: an
earlier draft in `src/src` (`lib.rs`, `utils.rs`, `crypto.rs`) and the
`rustyguard-crypto` crate.  This file shallowly embeds the byte-level data
model and the operations of both skeletons.  Bytes are `Nat` values
(kept < 256 by construction), byte strings are `List Nat`, and all machine
arithmetic is `Nat` with explicit `% 2^w` reductions.  The external crypto
crates the code calls (blake2, hmac, chacha20poly1305, x25519-dalek) are
embedded by their RFC-specified algorithms (RFC 7693, RFC 2104, RFC 8439,
RFC 7748), which those crates implement.
-/

namespace Rustyguard

/-- 2^32, the modulus for 32-bit words. -/
def w32 : Nat := 4294967296

/-- 32-bit addition, `u32::wrapping_add`. -/
def add32 (a b : Nat) : Nat := (a + b) % w32

/-- 32-bit xor (stays below 2^32 on reduced inputs). -/
def xor32 (a b : Nat) : Nat := Nat.xor a b

/-- 32-bit right rotation by `r` (0 < r < 32) of a reduced word. -/
def rotr32 (x r : Nat) : Nat := ((x >>> r) ||| (x <<< (32 - r))) % w32

/-- Little-endian 32-bit word read at word index `i` of a byte list. -/
def le32At (l : List Nat) (i : Nat) : Nat :=
  l.getD (4 * i) 0 + 256 * l.getD (4 * i + 1) 0 +
    65536 * l.getD (4 * i + 2) 0 + 16777216 * l.getD (4 * i + 3) 0

/-- The 4 little-endian bytes of a 32-bit word. -/
def wordLE4 (w : Nat) : List Nat :=
  [w % 256, w / 256 % 256, w / 65536 % 256, w / 16777216 % 256]

/-- Little-endian number of a byte list. -/
def leNum (l : List Nat) : Nat := l.foldr (fun b acc => b + 256 * acc) 0

/-- `len` little-endian bytes of `n`. -/
def toLE (n : Nat) : Nat → List Nat
  | 0 => []
  | len + 1 => n % 256 :: toLE (n / 256) len

/-- Big-endian bytes of `n` (`u16::to_be_bytes` is `toBE n 2`). -/
def toBE (n len : Nat) : List Nat := (toLE n len).reverse

/-- Zero-pad a byte list on the right to length `n` (it is only ever
applied to lists of length ≤ n). -/
def padTo (n : Nat) (l : List Nat) : List Nat :=
  l ++ List.replicate (n - l.length) 0

/-! ## BLAKE2s (RFC 7693), the `blake2` crate

`Blake2s256::digest` is `blake2s [] 32`, `Blake2sMac::<U16>` with key `k`
is `blake2s k 16`. -/

/-- The BLAKE2s initialization vector. -/
def blakeIV : List Nat :=
  [1779033703, 3144134277, 1013904242, 2773480762,
   1359893119, 2600822924, 528734635, 1541459225]

/-- The BLAKE2 message schedule sigma permutations. -/
def blakeSigma : List (List Nat) :=
  [[0, 1, 2, 3, 4, 5, 6, 7, 8, 9, 10, 11, 12, 13, 14, 15],
   [14, 10, 4, 8, 9, 15, 13, 6, 1, 12, 0, 2, 11, 7, 5, 3],
   [11, 8, 12, 0, 5, 2, 15, 13, 10, 14, 3, 6, 7, 1, 9, 4],
   [7, 9, 3, 1, 13, 12, 11, 14, 2, 6, 5, 10, 4, 0, 15, 8],
   [9, 0, 5, 7, 2, 4, 10, 15, 14, 1, 11, 12, 6, 8, 3, 13],
   [2, 12, 6, 10, 0, 11, 8, 3, 4, 13, 7, 5, 15, 14, 1, 9],
   [12, 5, 1, 15, 14, 13, 4, 10, 0, 7, 6, 3, 9, 2, 8, 11],
   [13, 11, 7, 14, 12, 1, 3, 9, 5, 0, 15, 4, 8, 6, 2, 10],
   [6, 15, 14, 9, 11, 3, 0, 8, 12, 2, 13, 7, 1, 4, 10, 5],
   [10, 2, 8, 4, 7, 6, 1, 5, 15, 11, 9, 14, 3, 12, 13, 0]]

/-- The BLAKE2s G mixing function on working vector `v` at positions
`a b c d` with message words `x y`. -/
def blakeG (v : List Nat) (a b c d x y : Nat) : List Nat :=
  let va := add32 (add32 (v.getD a 0) (v.getD b 0)) x
  let vd := rotr32 (xor32 (v.getD d 0) va) 16
  let vc := add32 (v.getD c 0) vd
  let vb := rotr32 (xor32 (v.getD b 0) vc) 12
  let va2 := add32 (add32 va vb) y
  let vd2 := rotr32 (xor32 vd va2) 8
  let vc2 := add32 vc vd2
  let vb2 := rotr32 (xor32 vb vc2) 7
  ((((((((v.set a va).set d vd).set c vc).set b vb).set a va2).set d vd2).set c vc2).set b vb2)

/-- One BLAKE2s round with message words `m` and schedule `s`. -/
def blakeRound (m : List Nat) (v : List Nat) (s : List Nat) : List Nat :=
  let g := fun v a b c d i j => blakeG v a b c d (m.getD (s.getD i 0) 0) (m.getD (s.getD j 0) 0)
  let v1 := g v 0 4 8 12 0 1
  let v2 := g v1 1 5 9 13 2 3
  let v3 := g v2 2 6 10 14 4 5
  let v4 := g v3 3 7 11 15 6 7
  let v5 := g v4 0 5 10 15 8 9
  let v6 := g v5 1 6 11 12 10 11
  let v7 := g v6 2 7 8 13 12 13
  g v7 3 4 9 14 14 15

/-- The BLAKE2s compression function: chaining value `h` (8 words),
64-byte block, byte counter `t`, final-block flag `f`. -/
def blakeCompress (h : List Nat) (block : List Nat) (t : Nat) (f : Bool) : List Nat :=
  let m := (List.range 16).map (le32At block)
  let v0 := h ++ blakeIV
  let v1 := v0.set 12 (xor32 (v0.getD 12 0) (t % w32))
  let v2 := v1.set 13 (xor32 (v1.getD 13 0) (t / w32 % w32))
  let v3 := if f then v2.set 14 (xor32 (v2.getD 14 0) 4294967295) else v2
  let v := blakeSigma.foldl (blakeRound m) v3
  (List.range 8).map fun i => xor32 (xor32 (h.getD i 0) (v.getD i 0)) (v.getD (i + 8) 0)

/-- Absorb the message blocks: full 64-byte blocks, then a padded final
block flagged final, as in RFC 7693.  Structural recursion on a fuel
argument (any fuel ≥ length/64 gives the loop's behaviour). -/
def blakeBlocks (h : List Nat) (t : Nat) (msg : List Nat) : Nat → List Nat
  | 0 => blakeCompress h (padTo 64 msg) (t + msg.length) true
  | fuel + 1 =>
      if msg.length ≤ 64 then blakeCompress h (padTo 64 msg) (t + msg.length) true
      else blakeBlocks (blakeCompress h (msg.take 64) (t + 64) false) (t + 64)
        (msg.drop 64) fuel

/-- The block loop at adequate fuel. -/
def blakeLoop (h : List Nat) (t : Nat) (msg : List Nat) : List Nat :=
  blakeBlocks h t msg msg.length

/-- Keyed BLAKE2s with `outLen`-byte digest: parameter block sets digest
length and key length; a present key is fed as a padded first block. -/
def blake2s (key : List Nat) (outLen : Nat) (msg : List Nat) : List Nat :=
  let h0 := blakeIV.set 0
    (xor32 (blakeIV.getD 0 0) (16842752 + 256 * key.length + outLen))
  let h :=
    if key.isEmpty then blakeLoop h0 0 msg
    else if msg.isEmpty then blakeCompress h0 (padTo 64 key) 64 true
    else blakeLoop (blakeCompress h0 (padTo 64 key) 64 false) 64 msg
  ((h.map wordLE4).flatten).take outLen

/-! ## The hash / mac / hmac / hkdf helpers of `src/utils.rs`,
`src/crypto.rs` and `rustyguard-crypto`'s `prim`.

`hash` streams its chunks into `Blake2s256`; streaming equals hashing the
concatenation, so the embedding takes the already-concatenated bytes. -/

/-- `fn hash(msg: [&[u8]; M]) -> Output<Blake2s256>` on the concatenation
of its chunks. -/
def hash (msg : List Nat) : List Nat := blake2s [] 32 msg

/-- `fn mac(key, msg) -> GenericArray<u8, U16>`: `Blake2sMac::<U16>`,
i.e. keyed BLAKE2s with a 16-byte digest, on the concatenated chunks. -/
def mac (key msg : List Nat) : List Nat := blake2s key 16 msg

/-- `fn hmac(key, msg)`: `SimpleHmac<Blake2s256>` = RFC 2104 HMAC with
block size 64 over BLAKE2s-256. -/
def hmac (key msg : List Nat) : List Nat :=
  let k0 := if key.length > 64 then padTo 64 (hash key) else padTo 64 key
  let ipad := k0.map (fun b => xor32 b 54)
  let opad := k0.map (fun b => xor32 b 92)
  hash (opad ++ hash (ipad ++ msg))

/-- The tail of `fn hkdf`'s loop: `for i in 1..N { ti = hmac(&t0, [&ti, &[i+1]]); output[i] = ti; }`. -/
def hkdfGo (t0 : List Nat) : List Nat → Nat → Nat → List (List Nat)
  | _, _, 0 => []
  | ti, i, fuel + 1 =>
      let tn := hmac t0 (ti ++ [i + 1])
      tn :: hkdfGo t0 tn (i + 1) fuel

/-- `fn hkdf<N, M>(key, msg) -> [Output; N]` of `src/utils.rs` /
`src/crypto.rs`: `t0 = hmac(key, msg)`, `t1 = hmac(t0, [1])`, then
`ti = hmac(t0, t(i-1) ‖ (i+1))` for the remaining outputs. -/
def hkdf (key msg : List Nat) (n : Nat) : List (List Nat) :=
  if n = 0 then []
  else
    let t0 := hmac key msg
    let t1 := hmac t0 [1]
    t1 :: hkdfGo t0 t1 1 (n - 1)

/-- `let [c] = hkdf(key, msg)`. -/
def hkdf1 (key msg : List Nat) : List Nat := (hkdf key msg 1).getD 0 []

/-- `let [c, k] = hkdf(key, msg)`. -/
def hkdf2 (key msg : List Nat) : List Nat × List Nat :=
  ((hkdf key msg 2).getD 0 [], (hkdf key msg 2).getD 1 [])

/-- `let [c, t, k] = hkdf(key, msg)`. -/
def hkdf3 (key msg : List Nat) : List Nat × List Nat × List Nat :=
  ((hkdf key msg 3).getD 0 [], (hkdf key msg 3).getD 1 [], (hkdf key msg 3).getD 2 [])

/-! ## ChaCha20-Poly1305 (RFC 8439), the `chacha20poly1305` crate -/

/-- The ChaCha20 quarter round on working state `v` at positions `a b c d`. -/
def chachaQR (v : List Nat) (a b c d : Nat) : List Nat :=
  let va := add32 (v.getD a 0) (v.getD b 0)
  let vd := rotr32 (xor32 (v.getD d 0) va) 16
  let vc := add32 (v.getD c 0) vd
  let vb := rotr32 (xor32 (v.getD b 0) vc) 20
  let va2 := add32 va vb
  let vd2 := rotr32 (xor32 vd va2) 24
  let vc2 := add32 vc vd2
  let vb2 := rotr32 (xor32 vb vc2) 25
  ((((((((v.set a va).set d vd).set c vc).set b vb).set a va2).set d vd2).set c vc2).set b vb2)

/-- A ChaCha20 double round (column round then diagonal round). -/
def chachaDoubleRound (v : List Nat) : List Nat :=
  let v1 := chachaQR v 0 4 8 12
  let v2 := chachaQR v1 1 5 9 13
  let v3 := chachaQR v2 2 6 10 14
  let v4 := chachaQR v3 3 7 11 15
  let v5 := chachaQR v4 0 5 10 15
  let v6 := chachaQR v5 1 6 11 12
  let v7 := chachaQR v6 2 7 8 13
  chachaQR v7 3 4 9 14

/-- The ChaCha20 block function: 32-byte key, 12-byte nonce, 32-bit block
counter; 64 bytes of keystream. -/
def chachaBlock (key nonce : List Nat) (ctr : Nat) : List Nat :=
  let st : List Nat :=
    [1634760805, 857760878, 2036477234, 1797285236,
     le32At key 0, le32At key 1, le32At key 2, le32At key 3,
     le32At key 4, le32At key 5, le32At key 6, le32At key 7,
     ctr % w32, le32At nonce 0, le32At nonce 1, le32At nonce 2]
  let v := (List.range 10).foldl (fun v _ => chachaDoubleRound v) st
  (((List.range 16).map fun i => wordLE4 (add32 (st.getD i 0) (v.getD i 0))).flatten)

/-- `n` bytes of ChaCha20 keystream starting at block counter 1 (the
encryption stream of the AEAD). -/
def chachaStream (key nonce : List Nat) (n : Nat) : List Nat :=
  ((((List.range ((n + 63) / 64)).map fun i => chachaBlock key nonce (1 + i)).flatten).take n)

/-- 2^130 − 5, the Poly1305 prime. -/
def poly1305P : Nat := 1361129467683753853853498429727072845819

/-- Clamp the Poly1305 `r` value. -/
def polyClampR (r : Nat) : Nat := r &&& 21267647620597763993911028882763415551

/-- Poly1305 accumulation over 16-byte blocks (a shorter final block gets
its high marker bit at its own length).  Structural recursion on a fuel
argument (any fuel ≥ length/16 gives the loop's behaviour). -/
def polyBlocks (r : Nat) : Nat → List Nat → Nat → Nat
  | acc, _, 0 => acc
  | acc, msg, fuel + 1 =>
      if msg.length = 0 then acc
      else
        let c := msg.take 16
        let b := leNum c + 2 ^ (8 * c.length)
        polyBlocks r ((acc + b) * r % poly1305P) (msg.drop 16) fuel

/-- The Poly1305 MAC: 32-byte one-time key, 16-byte tag. -/
def poly1305 (key msg : List Nat) : List Nat :=
  let r := polyClampR (leNum (key.take 16))
  let s := leNum ((key.drop 16).take 16)
  toLE ((polyBlocks r 0 msg msg.length + s) % 340282366920938463463374607431768211456) 16

/-- Pad a byte string with zeros to a multiple of 16 (RFC 8439 `pad16`). -/
def pad16 (l : List Nat) : List Nat :=
  l ++ List.replicate ((16 - l.length % 16) % 16) 0

/-- The AEAD authentication input: `pad16(aad) ‖ pad16(ct) ‖ le64(|aad|) ‖ le64(|ct|)`. -/
def aeadMacData (aad ct : List Nat) : List Nat :=
  pad16 aad ++ pad16 ct ++ toLE aad.length 8 ++ toLE ct.length 8

/-- The Poly1305 tag of an AEAD message: the one-time key is the first 32
bytes of ChaCha20 block 0. -/
def aeadTag (key nonce aad ct : List Nat) : List Nat :=
  poly1305 ((chachaBlock key nonce 0).take 32) (aeadMacData aad ct)

/-- `encrypt_in_place_detached`: returns ciphertext and tag. -/
def aeadSeal (key nonce aad msg : List Nat) : List Nat × List Nat :=
  let ct := List.zipWith Nat.xor msg (chachaStream key nonce msg.length)
  (ct, aeadTag key nonce aad ct)

/-- `decrypt_in_place_detached`: verifies the tag over the ciphertext,
then (only on success) decrypts; `none` is the `aead::Error` case. -/
def aeadOpen (key nonce aad ct tag : List Nat) : Option (List Nat) :=
  if aeadTag key nonce aad ct = tag then
    some (List.zipWith Nat.xor ct (chachaStream key nonce ct.length))
  else none

/-! ## X25519 (RFC 7748), the `x25519-dalek` crate -/

/-- 2^255 − 19. -/
def p25519 : Nat := 57896044618658097711785492504343953926634992332820282019728792003956564819949

/-- Field addition mod 2^255 − 19. -/
def fadd (a b : Nat) : Nat := (a + b) % p25519

/-- Field subtraction mod 2^255 − 19 (total on naturals). -/
def fsub (a b : Nat) : Nat := (a + p25519 - b % p25519) % p25519

/-- Field multiplication mod 2^255 − 19. -/
def fmul (a b : Nat) : Nat := a * b % p25519

/-- Fuelled modular exponentiation by squaring (fuel 260 suffices for the
inversion exponent 2^255 − 21). -/
def powModAux : Nat → Nat → Nat → Nat → Nat
  | _, _, p, 0 => 1 % p
  | b, e, p, fuel + 1 =>
      if e = 0 then 1 % p
      else
        let r := powModAux (b * b % p) (e / 2) p fuel
        if e % 2 = 1 then r * b % p else r

/-- Field inversion by Fermat: `z^(p−2) mod p`. -/
def finv (z : Nat) : Nat := powModAux z (p25519 - 2) p25519 260

/-- One step of the Montgomery ladder (RFC 7748, with the conditional swap
folded in): state is `(x2, z2, x3, z3, swap)`, `kt` the scalar bit. -/
def ladderStep (x1 : Nat) (st : Nat × Nat × Nat × Nat × Bool) (kt : Bool) :
    Nat × Nat × Nat × Nat × Bool :=
  match st with
  | (px2, pz2, px3, pz3, psw) =>
  let sw := Bool.xor psw kt
  let x2 := if sw then px3 else px2
  let z2 := if sw then pz3 else pz2
  let x3 := if sw then px2 else px3
  let z3 := if sw then pz2 else pz3
  let a := fadd x2 z2
  let aa := fmul a a
  let b := fsub x2 z2
  let bb := fmul b b
  let e := fsub aa bb
  let c := fadd x3 z3
  let d := fsub x3 z3
  let da := fmul d a
  let cb := fmul c b
  let x3n := fmul (fadd da cb) (fadd da cb)
  let z3n := fmul x1 (fmul (fsub da cb) (fsub da cb))
  let x2n := fmul aa bb
  let z2n := fmul e (fadd aa (fmul 121665 e))
  (x2n, z2n, x3n, z3n, kt)

/-- Iterating the ladder steps over a list of bit indices. -/
def ladderFold (x1 k : Nat) (st : Nat × Nat × Nat × Nat × Bool) (ts : List Nat) :
    Nat × Nat × Nat × Nat × Bool :=
  ts.foldl (fun st t => ladderStep x1 st (k.testBit t)) st

/-- The final conditional swap and the `x2 * z2^(p−2)` output. -/
def ladderFinish (st : Nat × Nat × Nat × Nat × Bool) : Nat :=
  match st with
  | (px2, pz2, px3, pz3, psw) =>
    fmul (if psw then px3 else px2) (finv (if psw then pz3 else pz2))

/-- The full Montgomery ladder over bits 254 … 0 of the (already clamped)
scalar `k`, on the u-coordinate `x1`. -/
def montLadder (k x1 : Nat) : Nat :=
  ladderFinish (ladderFold (x1 % p25519) k (1, 0, x1 % p25519, 1, false)
    ((List.range 255).reverse))

/-- Clamp a 32-byte scalar: clear the low 3 bits and the top bit, set
bit 254 (`StaticSecret::from` does this on construction). -/
def clampScalar (sk : List Nat) : Nat :=
  leNum ((sk.set 0 (sk.getD 0 0 &&& 248)).set 31 ((sk.getD 31 0 &&& 127) ||| 64))

/-- Decode a 32-byte u-coordinate: mask the top bit. -/
def decodeU (pk : List Nat) : Nat :=
  leNum (pk.set 31 (pk.getD 31 0 &&& 127))

/-- `x25519(sk_bytes, u_bytes)`: scalar multiplication on Curve25519. -/
def x25519 (sk pk : List Nat) : List Nat :=
  toLE (montLadder (clampScalar sk) (decodeU pk)) 32

/-- `StaticSecret::diffie_hellman`: X25519 of the clamped secret with the
peer public key. -/
def dh (sk pk : List Nat) : List Nat := x25519 sk pk

/-- `PublicKey::from(&secret)`: X25519 with the basepoint u = 9. -/
def pubKey (sk : List Nat) : List Nat := x25519 sk (toLE 9 32)

/-! ## Noise state and in-place encrypted fields
(`src/utils.rs`, `src/crypto.rs`; `rustyguard-crypto`'s `prim` mirrors
`src/crypto.rs`). -/

/-- `Ci = Hash(Construction)`, the `CONSTRUCTION_HASH` constant. -/
def CONSTRUCTION_HASH : List Nat :=
  [96, 226, 109, 174, 243, 39, 239, 192, 46, 195, 53, 226, 160, 37, 210, 208,
   22, 235, 66, 6, 248, 114, 119, 245, 45, 56, 209, 152, 139, 120, 205, 54]

/-- `Hi = Hash(Ci ‖ Identifier)`, the `IDENTIFIER_HASH` constant. -/
def IDENTIFIER_HASH : List Nat :=
  [34, 17, 179, 97, 8, 26, 197, 102, 105, 18, 67, 219, 69, 138, 213, 50,
   45, 156, 108, 102, 34, 147, 232, 183, 14, 225, 156, 101, 186, 7, 158, 243]

/-- The Noise `(chain, hash)` pair, `struct HandshakeState`. -/
structure HandshakeState where
  chain : List Nat
  hash : List Nat
deriving DecidableEq, Repr

/-- `HandshakeState::default()`: chain = CONSTRUCTION_HASH, hash = IDENTIFIER_HASH. -/
def HandshakeState.start : HandshakeState :=
  { chain := CONSTRUCTION_HASH, hash := IDENTIFIER_HASH }

/-- `fn mix_hash(&mut self, b)`: `hash := Hash(hash ‖ b)`. -/
def HandshakeState.mix_hash (s : HandshakeState) (b : List Nat) : HandshakeState :=
  { s with hash := Rustyguard.hash (s.hash ++ b) }

/-- `fn mix_chain(&mut self, b)`: `chain := Hkdf1(chain, b)`. -/
def HandshakeState.mix_chain (s : HandshakeState) (b : List Nat) : HandshakeState :=
  { s with chain := hkdf1 s.chain b }

/-- `fn mix_dh(&mut self, sk, pk)`. -/
def HandshakeState.mix_dh (s : HandshakeState) (sk pk : List Nat) : HandshakeState :=
  { s with chain := hkdf1 s.chain (dh sk pk) }

/-- `fn mix_key_dh(&mut self, sk, pk) -> Key`: `(chain, k) := Hkdf2(chain, DH(sk, pk))`.
No check of the shared secret is performed. -/
def HandshakeState.mix_key_dh (s : HandshakeState) (sk pk : List Nat) :
    HandshakeState × List Nat :=
  let p := hkdf2 s.chain (dh sk pk)
  ({ s with chain := p.1 }, p.2)

/-- `fn mix_key2(&mut self, b) -> Key` (named `mix_key_and_hash` in
`rustyguard-crypto`): `(chain, t, k) := Hkdf3(chain, b); mix_hash(t)`. -/
def HandshakeState.mix_key2 (s : HandshakeState) (b : List Nat) :
    HandshakeState × List Nat :=
  let t := hkdf3 s.chain b
  (HandshakeState.mix_hash { s with chain := t.1 } t.2.1, t.2.2)

/-- `fn split(&mut self) -> (Key, Key)` (the zeroisation is not modelled). -/
def HandshakeState.split (s : HandshakeState) : List Nat × List Nat :=
  hkdf2 s.chain []

/-- `fn nonce(counter: u64) -> Nonce`: 4 zero bytes then the LE64 counter. -/
def nonce (counter : Nat) : List Nat := List.replicate 4 0 ++ toLE counter 8

/-- `struct Encrypted<U>` / the `encrypted!` structs: ciphertext plus
Poly1305 tag. -/
structure Encrypted where
  msg : List Nat
  tag : List Nat
deriving DecidableEq, Repr

/-- `bytes_of(&self)` for an `Encrypted` value. -/
def Encrypted.bytes (e : Encrypted) : List Nat := e.msg ++ e.tag

/-- `fn decrypt_and_hash(&mut self, state, key)`: the hash is mixed with
the ciphertext BEFORE the AEAD open is attempted; the updated state is
returned in both outcomes (`none` models the `Err` return). -/
def Encrypted.decrypt_and_hash (e : Encrypted) (state : HandshakeState)
    (key : List Nat) : Option (List Nat) × HandshakeState :=
  let aad := state.hash
  let state1 := state.mix_hash e.bytes
  (aeadOpen key (nonce 0) aad e.msg e.tag, state1)

/-- `fn encrypt_and_hash(msg, state, key) -> Self`. -/
def Encrypted.encrypt_and_hash (msg : List Nat) (state : HandshakeState)
    (key : List Nat) : Encrypted × HandshakeState :=
  let aad := state.hash
  let r := aeadSeal key (nonce 0) aad msg
  let out : Encrypted := { msg := r.1, tag := r.2 }
  (out, state.mix_hash out.bytes)

/-- `enum Error` of the `src/src` draft. -/
inductive Error where
  | InvalidMessage
  | Unspecified
  | Unaligned
  | Rejected
deriving DecidableEq, Repr

/-- `enum CryptoError` of `rustyguard-crypto`. -/
inductive CryptoError where
  | DecryptionError
  | Rejected
deriving DecidableEq, Repr

/-! ## The `src/src` draft: `FirstMessage`, `MacProtected`, `Sessions` -/

/-- `struct Config` (the `peers` map is kept as the list of registered
static public keys; the allowed-IPs values play no part here). -/
structure Config where
  private_key : List Nat
  public_key : List Nat
  mac1_key : List Nat
  mac2_key : List Nat
  peers : List (List Nat)

/-- `struct FirstMessage` (the body of a `MacProtected<FirstMessage>`). -/
structure FirstMessage where
  sender : Nat
  ephemeral_key : List Nat
  static_key : Encrypted
  timestamp : Encrypted
deriving DecidableEq, Repr

/-- `bytes_of` a `FirstMessage`: LE sender, ephemeral, encrypted static,
encrypted timestamp. -/
def FirstMessage.bytes (m : FirstMessage) : List Nat :=
  wordLE4 m.sender ++ m.ephemeral_key ++ m.static_key.bytes ++ m.timestamp.bytes

/-- `FirstMessage::process(&mut self, config)`.  Mirrors the source
statement by statement; in particular the second decrypt-and-hash is
applied to `self.static_key` again (whose buffer now holds the plaintext
of the first decryption), NOT to `self.timestamp` — exactly as in
`src/src/lib.rs` line 290.  The returned pair carries the new handshake
state together with the final content of the `static_key` buffer (which
is what the caller later reads through `assumed_decrypted`). -/
def FirstMessage.process (m : FirstMessage) (config : Config) :
    Except Error (HandshakeState × List Nat) :=
  let hs := HandshakeState.start
  let hs := hs.mix_hash config.public_key
  let hs := hs.mix_chain m.ephemeral_key
  let hs := hs.mix_hash m.ephemeral_key
  match hs.mix_key_dh config.private_key m.ephemeral_key with
  | (hs, k) =>
  match Encrypted.decrypt_and_hash m.static_key hs k with
  | (none, _) => Except.error Error.Unspecified
  | (some spk_i, hs) =>
  match hs.mix_key_dh config.private_key spk_i with
  | (hs, k2) =>
  match Encrypted.decrypt_and_hash { msg := spk_i, tag := m.static_key.tag } hs k2 with
  | (none, _) => Except.error Error.Unspecified
  | (some ts, hs) =>
  if (config.peers.contains spk_i) = false then Except.error Error.Rejected
  else Except.ok (hs, ts)

/-- `MacProtected<FirstMessage>`. -/
structure MacProtectedFirst where
  inner : FirstMessage
  mac1 : List Nat
  mac2 : List Nat
deriving DecidableEq, Repr

/-- `bytes_of` a `MacProtected<FirstMessage>`. -/
def MacProtectedFirst.bytes (m : MacProtectedFirst) : List Nat :=
  m.inner.bytes ++ m.mac1 ++ m.mac2

/-- `fn mac1(&self, mac1_key)`: the keyed MAC over the bytes before the
`mac1` field, i.e. over the inner message. -/
def MacProtectedFirst.mac1Of (m : MacProtectedFirst) (mac1_key : List Nat) : List Nat :=
  mac mac1_key m.inner.bytes

/-- `fn verify_mac1(&self, config)`. -/
def MacProtectedFirst.verify_mac1 (m : MacProtectedFirst) (config : Config) :
    Except Error Unit :=
  if m.mac1Of config.mac1_key ≠ m.mac1 then Except.error Error.Rejected
  else Except.ok ()

/-- `IpAddr`. -/
inductive IpAddr where
  | V4 (octets : List Nat)
  | V6 (octets : List Nat)
deriving DecidableEq, Repr

/-- `SocketAddr`. -/
structure SocketAddr where
  ip : IpAddr
  port : Nat
deriving DecidableEq, Repr

/-- `octets()` of the address's IP (4 bytes for V4, 16 for V6). -/
def SocketAddr.ipBytes (a : SocketAddr) : List Nat :=
  match a.ip with
  | IpAddr.V4 o => o
  | IpAddr.V6 o => o

/-- `struct Sessions` (rng and session table omitted: no claim touches them). -/
structure Sessions where
  config : Config
  random_secret : List Nat

/-- `fn overloaded(&self) -> bool { false }`. -/
def Sessions.overloaded (_ : Sessions) : Bool := false

/-- `fn cookie(&self, socket)`: `mac(random_secret, ip_octets ‖ port_be)`. -/
def Sessions.cookie (s : Sessions) (socket : SocketAddr) : List Nat :=
  mac s.random_secret (socket.ipBytes ++ toBE socket.port 2)

/-- Parse 144 message bytes (after the 4-byte tag) as a
`MacProtected<FirstMessage>`, as `bytemuck::try_from_bytes_mut` reads it. -/
def parseMacFirst (b : List Nat) : MacProtectedFirst :=
  { inner :=
      { sender := le32At b 0
        ephemeral_key := (b.drop 4).take 32
        static_key := { msg := (b.drop 36).take 32, tag := (b.drop 68).take 16 }
        timestamp := { msg := (b.drop 84).take 12, tag := (b.drop 96).take 16 } }
    mac1 := (b.drop 112).take 16
    mac2 := (b.drop 128).take 16 }

/-- The outcome of `recv_message`: an error, a produced response, or the
`todo!()` the control flow of the draft falls into. -/
inductive RecvResult where
  | response (bytes : List Nat)
  | err (e : Error)
  | todo
deriving DecidableEq, Repr

/-- `Sessions::recv_message`.  `alignRem` is the buffer address modulo 4
(the `msg.as_ptr().cast::<u32>().is_aligned()` check).  Since
`overloaded()` is `false`, the cookie branch is dead; the `MSG_SECOND`,
`MSG_DATA` and `MSG_COOKIE` arms fall straight into `todo!()`. -/
def Sessions.recv_message (s : Sessions) (alignRem : Nat) (buf : List Nat) :
    RecvResult :=
  if alignRem ≠ 0 then RecvResult.err Error.Unaligned
  else if buf.length < 4 then RecvResult.err Error.InvalidMessage
  else
    let rest := buf.drop 4
    if le32At buf 0 = 1 then
      if rest.length ≠ 144 then RecvResult.err Error.InvalidMessage
      else
        let m := parseMacFirst rest
        match m.verify_mac1 s.config with
        | Except.error e => RecvResult.err e
        | Except.ok _ =>
          match m.inner.process s.config with
          | Except.error e => RecvResult.err e
          | Except.ok (_, static_buf) =>
            if (s.config.peers.contains static_buf) = false then
              RecvResult.err Error.Rejected
            else RecvResult.todo
    else if le32At buf 0 = 2 then RecvResult.todo
    else if le32At buf 0 = 3 then RecvResult.todo
    else if le32At buf 0 = 4 then RecvResult.todo
    else RecvResult.err Error.InvalidMessage

/-! ## Message layout (`repr(C)`, little-endian, `test_size_align`)

Sizes are the sums of the `repr(C)` field sizes (there is no padding:
every field size is a multiple of its alignment and the only alignment
larger than 1 is the 4 of the leading `LEU32` fields); the struct
alignment is the maximum field alignment. -/

/-- `size_of::<FirstMessage>()`: sender + ephemeral + (32+16) + (12+16). -/
def FirstMessage.size : Nat := 4 + 32 + (32 + 16) + (12 + 16)

/-- `size_of::<SecondMessage>()`: sender + receiver + ephemeral + empty. -/
def SecondMessage.size : Nat := 4 + 4 + 32 + 16

/-- `size_of::<CookieMessage>()`: receiver + 24-byte nonce + (16+16). -/
def CookieMessage.size : Nat := 4 + 24 + (16 + 16)

/-- `size_of::<MacProtected<T>>()`: the body plus the two 16-byte MACs. -/
def macProtectedSize (inner : Nat) : Nat := inner + 16 + 16

/-- Alignment of a struct whose only non-byte field is a leading `LEU32`. -/
def leu32StructAlign : Nat := max 4 1

/-- A structurally well-formed `FirstMessage`: every field has its wire size. -/
def FirstMessage.WF (m : FirstMessage) : Prop :=
  m.ephemeral_key.length = 32 ∧ m.static_key.msg.length = 32 ∧
    m.static_key.tag.length = 16 ∧ m.timestamp.msg.length = 12 ∧
    m.timestamp.tag.length = 16

instance (m : FirstMessage) : Decidable m.WF := by
  unfold FirstMessage.WF; infer_instance

/-- A structurally well-formed `MacProtected<FirstMessage>`. -/
def MacProtectedFirst.WF (m : MacProtectedFirst) : Prop :=
  m.inner.WF ∧ m.mac1.length = 16 ∧ m.mac2.length = 16

instance (m : MacProtectedFirst) : Decidable m.WF := by
  unfold MacProtectedFirst.WF; infer_instance

/-! ## `rustyguard-crypto`: cookies, MAC verification, handshake -/

/-- `copy_from_slice` into `dst[start .. start+len]`: panics (`none`)
unless the source slice has exactly the destination length. -/
def copySlice (dst : List Nat) (start len : Nat) (src : List Nat) :
    Option (List Nat) :=
  if src.length = len then some (dst.take start ++ src ++ dst.drop (start + len))
  else none

/-- `struct CookieState`. -/
structure CookieState where
  key : List Nat
deriving DecidableEq, Repr

/-- The IP-copy stage of `CookieState::new_cookie`'s buffer construction:
`let mut a = [0; 20]` with the IP octets copied into `a[..4]` (V4) or
`a[..16]` (V6). -/
def CookieState.ipStage (addr : SocketAddr) : Option (List Nat) :=
  let a := List.replicate 20 0
  match addr.ip with
  | IpAddr.V4 o => copySlice a 0 4 o
  | IpAddr.V6 o => copySlice a 0 16 o

/-- The 20-byte buffer `CookieState::new_cookie` builds before MACing:
the IP stage followed by `a[16..].copy_from_slice(&port.to_le_bytes())`.
`a[16..]` has length 4 while `u16::to_le_bytes` yields 2 bytes, so the
final `copy_from_slice` panics (`none`) on every address. -/
def CookieState.cookieBuffer (addr : SocketAddr) : Option (List Nat) :=
  match CookieState.ipStage addr with
  | none => none
  | some a1 => copySlice a1 16 (20 - 16) (toLE addr.port 2)

/-- `CookieState::new_cookie(&self, addr)`: MAC of the 20-byte buffer
under the rotating cookie secret (when the buffer construction does not
panic). -/
def CookieState.new_cookie (cs : CookieState) (addr : SocketAddr) :
    Option (List Nat) :=
  match CookieState.cookieBuffer addr with
  | none => none
  | some a => some (mac cs.key a)

/-- `struct StaticPeerConfig`. -/
structure StaticPeerConfig where
  key : List Nat
  preshared_key : List Nat
  mac1_key : List Nat
  cookie_key : List Nat

/-- `struct StaticInitiatorConfig`. -/
structure StaticInitiatorConfig where
  private_key : List Nat
  public_key : List Nat
  mac1_key : List Nat
  cookie_key : List Nat

/-- `struct HandshakeInit` of `rustyguard-types` (fields as constructed by
`encrypt_handshake_init`). -/
structure HandshakeInit where
  ty : Nat
  sender : Nat
  ephemeral_key : List Nat
  static_key : Encrypted
  timestamp : Encrypted
  mac1 : List Nat
  mac2 : List Nat
deriving DecidableEq, Repr

/-- `as_bytes()[..offset_of!(HandshakeInit, mac1)]`. -/
def HandshakeInit.bytesBeforeMac1 (m : HandshakeInit) : List Nat :=
  wordLE4 m.ty ++ wordLE4 m.sender ++ m.ephemeral_key ++
    m.static_key.bytes ++ m.timestamp.bytes

/-- `as_bytes()[..offset_of!(HandshakeInit, mac2)]`. -/
def HandshakeInit.bytesBeforeMac2 (m : HandshakeInit) : List Nat :=
  m.bytesBeforeMac1 ++ m.mac1

/-- `fn compute_mac1(&self, mac1_key)` from the `mac_protected!` macro. -/
def HandshakeInit.compute_mac1 (m : HandshakeInit) (mac1_key : List Nat) : List Nat :=
  mac mac1_key m.bytesBeforeMac1

/-- `fn compute_mac2(&self, cookie)` from the `mac_protected!` macro. -/
def HandshakeInit.compute_mac2 (m : HandshakeInit) (cookie : List Nat) : List Nat :=
  mac cookie m.bytesBeforeMac2

/-- `ControlFlow<Cookie, &mut Self>` as returned by `HasMac::verify`. -/
inductive VerifyFlow where
  | brk (cookie : List Nat)
  | cont (m : HandshakeInit)
deriving DecidableEq, Repr

/-- `fn verify_mac1(&self, mac1_key)`. -/
def HandshakeInit.verify_mac1 (m : HandshakeInit) (mac1_key : List Nat) :
    Except CryptoError Unit :=
  if m.compute_mac1 mac1_key ≠ m.mac1 then Except.error CryptoError.Rejected
  else Except.ok ()

/-- `fn verify_mac2(&self, cookie)`. -/
def HandshakeInit.verify_mac2 (m : HandshakeInit) (cookie : List Nat) :
    Except CryptoError Unit :=
  if m.compute_mac2 cookie ≠ m.mac2 then Except.error CryptoError.Rejected
  else Except.ok ()

/-- `HasMac::verify` for `HandshakeInit`: verify mac1 (the only `Err`
source); under load compute the fresh cookie and, if mac2 does not match
it, break with that cookie instead of erroring.  The outer `Option` is
panic propagation from `new_cookie`. -/
def HandshakeInit.verify (m : HandshakeInit) (config : StaticInitiatorConfig)
    (overload : Bool) (cookie : CookieState) (addr : SocketAddr) :
    Option (Except CryptoError VerifyFlow) :=
  match m.verify_mac1 config.mac1_key with
  | Except.error e => some (Except.error e)
  | Except.ok _ =>
    if overload then
      match cookie.new_cookie addr with
      | none => none
      | some c =>
        match m.verify_mac2 c with
        | Except.error _ => some (Except.ok (VerifyFlow.brk c))
        | Except.ok _ => some (Except.ok (VerifyFlow.cont m))
    else some (Except.ok (VerifyFlow.cont m))

/-- `fn encrypt_handshake_init(hs, initiator, peer, esk_i, now, sender, cookie)`. -/
def encrypt_handshake_init (hs : HandshakeState) (initiator : StaticInitiatorConfig)
    (peer : StaticPeerConfig) (esk_i : List Nat) (now : List Nat) (sender : Nat)
    (cookie : Option (List Nat)) : HandshakeInit × HandshakeState :=
  let epk_i := pubKey esk_i
  let hs := hs.mix_hash peer.key
  let hs := hs.mix_chain epk_i
  let hs := hs.mix_hash epk_i
  match hs.mix_key_dh esk_i peer.key with
  | (hs, k) =>
  match Encrypted.encrypt_and_hash initiator.public_key hs k with
  | (static_key, hs) =>
  match hs.mix_key_dh initiator.private_key peer.key with
  | (hs, k2) =>
  match Encrypted.encrypt_and_hash now hs k2 with
  | (timestamp, hs) =>
  let msg0 : HandshakeInit :=
    { ty := 1, sender := sender, ephemeral_key := epk_i,
      static_key := static_key, timestamp := timestamp,
      mac1 := List.replicate 16 0, mac2 := List.replicate 16 0 }
  let msg1 := { msg0 with mac1 := msg0.compute_mac1 peer.mac1_key }
  let m2 :=
    match cookie with
    | some c => msg1.compute_mac2 c
    | none => msg1.mac2
  ({ msg1 with mac2 := m2 }, hs)

/-- `fn decrypt_handshake_init(init, hs, receiver)`.  Decrypts the
`static_key` field, then the `timestamp` field; the decrypted timestamp
value is bound to `_timestamp` and never compared against anything.  The
`ok` value is the `transmute`d message whose encrypted fields now hold
the plaintexts, paired with the final handshake state. -/
def decrypt_handshake_init (init : HandshakeInit) (hs : HandshakeState)
    (receiver : StaticInitiatorConfig) :
    Except CryptoError (HandshakeInit × HandshakeState) :=
  let hs := hs.mix_hash receiver.public_key
  let hs := hs.mix_chain init.ephemeral_key
  let hs := hs.mix_hash init.ephemeral_key
  match hs.mix_key_dh receiver.private_key init.ephemeral_key with
  | (hs, k) =>
  match Encrypted.decrypt_and_hash init.static_key hs k with
  | (none, _) => Except.error CryptoError.DecryptionError
  | (some spk_i, hs) =>
  match hs.mix_key_dh receiver.private_key spk_i with
  | (hs, k2) =>
  match Encrypted.decrypt_and_hash init.timestamp hs k2 with
  | (none, _) => Except.error CryptoError.DecryptionError
  | (some ts, hs) =>
  Except.ok
    ({ init with static_key := { msg := spk_i, tag := init.static_key.tag },
                 timestamp := { msg := ts, tag := init.timestamp.tag } }, hs)

/-! ## Generic lemmas about the AEAD -/

/-! ## Remaining definitions: invariants, spec-side cookie, and the
concrete material the counterexamples and witnesses evaluate -/

def LadderInv : Nat × Nat × Nat × Nat × Bool → Prop
  | (x2, z2, x3, z3, _) =>
      (z2 = 0 ∨ x2 = 0) ∧ (z3 = 0 ∨ x3 = 0) ∧ x2 < p25519 ∧ z2 < p25519
        ∧ x3 < p25519 ∧ z3 < p25519

/-- Modelled from the spec: `cookie_local = Mac(CookieSecret, src_ip ‖ src_port)`
(the cookie the spec prescribes, for comparison with the two
implementations). -/
def specCookie (secret : List Nat) (addr : SocketAddr) : List Nat :=
  mac secret (addr.ipBytes ++ toBE addr.port 2)

/-- Responder static private key (witness material). -/
def wSkR : List Nat := List.replicate 32 2

/-- Initiator static private key (witness material). -/
def wSkI : List Nat := List.replicate 32 1

/-- Initiator ephemeral private key (witness material). -/
def wEskI : List Nat := List.replicate 32 17

/-- `pubKey wEskI`, certified below. -/
def wEpkI : List Nat :=
  [123, 78, 144, 155, 190, 127, 254, 68, 196, 101, 162, 32, 3, 125, 96, 142,
   227, 88, 151, 211, 30, 249, 114, 240, 127, 116, 137, 44, 176, 247, 63, 19]

/-- `pubKey wSkR`, certified through the dh agreements below. -/
def wPkR : List Nat :=
  [206, 141, 58, 209, 204, 182, 51, 236, 123, 112, 193, 120, 20, 165, 199, 110,
   205, 2, 150, 133, 5, 13, 52, 71, 69, 186, 5, 135, 14, 88, 125, 89]

/-- `pubKey wSkI`, certified through the dh agreements below. -/
def wPkI : List Nat :=
  [164, 224, 146, 146, 182, 81, 194, 120, 185, 119, 44, 86, 159, 95, 169, 187,
   19, 217, 6, 180, 106, 182, 140, 157, 249, 220, 43, 68, 9, 248, 162, 9]

/-- The value of both `dh wSkR wEpkI` and `dh wEskI wPkR`. -/
def wSsES : List Nat :=
  [74, 3, 57, 100, 134, 86, 139, 5, 110, 190, 195, 210, 174, 255, 165, 223,
   204, 111, 150, 207, 98, 185, 101, 34, 225, 86, 54, 68, 119, 170, 247, 122]

/-- The value of both `dh wSkR wPkI` and `dh wSkI wPkR`. -/
def wSsSS : List Nat :=
  [46, 215, 106, 181, 73, 177, 231, 60, 3, 30, 180, 156, 148, 72, 240, 121,
   138, 234, 129, 182, 152, 39, 154, 12, 61, 195, 228, 159, 191, 196, 185, 83]

/-- The bytes of the string `Noise_IKpsk2_25519_ChaChaPoly_BLAKE2s`. -/
def constructionLabel : List Nat :=
  [78, 111, 105, 115, 101, 95, 73, 75, 112, 115, 107, 50, 95, 50, 53, 53, 49,
   57, 95, 67, 104, 97, 67, 104, 97, 80, 111, 108, 121, 95, 66, 76, 65, 75,
   69, 50, 115]

/-- The bytes of the string `WireGuard v1 zx2c4 Jason@zx2c4.com`. -/
def identifierLabel : List Nat :=
  [87, 105, 114, 101, 71, 117, 97, 114, 100, 32, 118, 49, 32, 122, 120, 50,
   99, 52, 32, 74, 97, 115, 111, 110, 64, 122, 120, 50, 99, 52, 46, 99, 111,
   109]

/-- Responder-side view of itself (mac keys are irrelevant here). -/
def wCfgR : StaticInitiatorConfig :=
  { private_key := wSkR, public_key := wPkR,
    mac1_key := List.replicate 32 0, cookie_key := List.replicate 32 0 }

/-- The initiator's peer entry for the responder. -/
def wPeerR : StaticPeerConfig :=
  { key := wPkR, preshared_key := List.replicate 32 0,
    mac1_key := List.replicate 32 0, cookie_key := List.replicate 32 0 }

/-- Initiator-side view of itself. -/
def wInitCfg : StaticInitiatorConfig :=
  { private_key := wSkI, public_key := wPkI,
    mac1_key := List.replicate 32 0, cookie_key := List.replicate 32 0 }

/-- A TAI64N timestamp (`0x40 ‖ 0…`, the spec's scenario-1 epoch). -/
def wTs : List Nat := 64 :: List.replicate 11 0

/-- TAI64N values compare lexicographically, i.e. numerically on the
big-endian 12-byte string. -/
def tai64nLe (a b : List Nat) : Prop := leNum a.reverse ≤ leNum b.reverse

instance (a b : List Nat) : Decidable (tai64nLe a b) := by
  unfold tai64nLe; infer_instance

/-- An all-zero 12-byte ciphertext with all-zero tag (fails the AEAD). -/
def c2E : Encrypted := { msg := List.replicate 12 0, tag := List.replicate 16 0 }

/-- The all-zero AEAD key of the C2 counterexample. -/
def c2K : List Nat := List.replicate 32 0

/-- The sessions value of the C8 counterexample (secret 32 × 0x05). -/
def c8Sess : Sessions :=
  { config := { private_key := [], public_key := [], mac1_key := [],
                mac2_key := [], peers := [] },
    random_secret := List.replicate 32 5 }

/-- The address of the C8 counterexample. -/
def c8Addr : SocketAddr := { ip := IpAddr.V4 [192, 168, 0, 1], port := 443 }

instance {ε α : Type} [DecidableEq ε] [DecidableEq α] : DecidableEq (Except ε α) := fun a b =>
  match a, b with
  | Except.error x, Except.error y => decidable_of_iff (x = y) (by simp)
  | Except.error _, Except.ok _ => isFalse (by simp)
  | Except.ok _, Except.error _ => isFalse (by simp)
  | Except.ok x, Except.ok y => decidable_of_iff (x = y) (by simp)

/-- Configuration of the C3 witness message. -/
def c3Cfg : StaticInitiatorConfig :=
  { private_key := List.replicate 32 11, public_key := List.replicate 32 12,
    mac1_key := List.replicate 32 13, cookie_key := List.replicate 32 14 }

/-- A handshake init body (macs still zero). -/
def c3Base : HandshakeInit :=
  { ty := 1, sender := 5, ephemeral_key := List.replicate 32 7,
    static_key := { msg := List.replicate 32 8, tag := List.replicate 16 9 },
    timestamp := { msg := List.replicate 12 3, tag := List.replicate 16 4 },
    mac1 := List.replicate 16 0, mac2 := List.replicate 16 0 }

/-- The C3 message with a VALID mac1. -/
def c3Good : HandshakeInit := { c3Base with mac1 := c3Base.compute_mac1 c3Cfg.mac1_key }

/-- The C3 message with an INVALID mac1. -/
def c3Bad : HandshakeInit := { c3Base with mac1 := List.replicate 16 1 }

/-- Cookie state of the C3 witness. -/
def c3Cs : CookieState := { key := List.replicate 32 15 }

/-- Source address of the C3 witness. -/
def c3Addr : SocketAddr := { ip := IpAddr.V4 [10, 0, 0, 1], port := 51820 }

/-- The crafted plaintext of the C7 counterexample (an invisible-salamander
message: its ciphertext under the all-zero key carries a Poly1305 tag that
also verifies under the all-one key). -/
def c7m : List Nat :=
  [159, 7, 231, 190, 85, 81, 56, 122, 152, 186, 151, 124, 115, 45, 8, 13,
   254, 10, 89, 104, 96, 210, 157, 121, 166, 9, 219, 35, 48, 123, 76, 27]

/-- The handshake state of the C7 counterexample. -/
def c7s : HandshakeState :=
  { chain := List.replicate 32 0, hash := List.replicate 32 0 }

/-- A structurally well-formed all-zero `MacProtected<FirstMessage>`. -/
def c9Mp : MacProtectedFirst := parseMacFirst (List.replicate 144 0)

theorem zipWith_xor_cancel :
    ∀ (m ks : List Nat), m.length ≤ ks.length →
      List.zipWith Nat.xor (List.zipWith Nat.xor m ks) ks = m := by
  intro m
  induction m with
  | nil => intro ks _; simp
  | cons x m ih =>
      intro ks h
      cases ks with
      | nil => simp at h
      | cons k ks =>
          simp only [List.zipWith_cons_cons, List.cons.injEq]
          refine ⟨?_, ih ks (by simpa using h)⟩
          exact Nat.xor_cancel_right k x

theorem wordLE4_length (w : Nat) : (wordLE4 w).length = 4 := rfl

theorem chachaBlock_length (key nonceB : List Nat) (ctr : Nat) :
    (chachaBlock key nonceB ctr).length = 64 := by
  unfold chachaBlock
  rw [List.length_flatten]
  simp [List.map_map, Function.comp_def, wordLE4_length, List.map_const']

theorem chachaStream_length (key nonceB : List Nat) (n : Nat) :
    (chachaStream key nonceB n).length = n := by
  unfold chachaStream
  rw [List.length_take, List.length_flatten]
  simp only [List.map_map, Function.comp_def, chachaBlock_length, List.map_const',
    List.length_map, List.length_range, List.sum_replicate, smul_eq_mul]
  omega

/-- Sealing then opening under the same key, nonce and aad recovers the
plaintext. -/
theorem aeadOpen_aeadSeal (key nonceB aad m : List Nat) :
    aeadOpen key nonceB aad (aeadSeal key nonceB aad m).1 (aeadSeal key nonceB aad m).2
      = some m := by
  unfold aeadOpen aeadSeal
  simp only [if_pos rfl]
  have hct : (List.zipWith Nat.xor m (chachaStream key nonceB m.length)).length = m.length := by
    simp [List.length_zipWith, chachaStream_length]
  rw [hct]
  exact congrArg some (zipWith_xor_cancel m _ (by rw [chachaStream_length]))

/-- `decrypt_and_hash` inverts `encrypt_and_hash` at the same state and
key, and the resulting states agree. -/
theorem decrypt_encrypt_and_hash (m : List Nat) (s : HandshakeState) (k : List Nat) :
    Encrypted.decrypt_and_hash (Encrypted.encrypt_and_hash m s k).1 s k
      = (some m, (Encrypted.encrypt_and_hash m s k).2) := by
  unfold Encrypted.decrypt_and_hash Encrypted.encrypt_and_hash
  simp only [Encrypted.bytes]
  rw [show (aeadSeal k (nonce 0) s.hash m).1 = List.zipWith Nat.xor m (chachaStream k (nonce 0) m.length) from rfl]
  rw [show (aeadSeal k (nonce 0) s.hash m).2 = aeadTag k (nonce 0) s.hash (List.zipWith Nat.xor m (chachaStream k (nonce 0) m.length)) from rfl]
  have := aeadOpen_aeadSeal k (nonce 0) s.hash m
  unfold aeadSeal at this
  rw [this]

/-- Decrypting an encrypted handshake init succeeds and recovers the
initiator public key and timestamp, provided the configurations are wired
to the same parties (`receiver.public_key = peer.key`) and the two X25519
exchanges agree (which holds for genuine key pairs). -/
theorem decrypt_encrypt_handshake_init
    (hs : HandshakeState) (initiator receiver : StaticInitiatorConfig)
    (peer : StaticPeerConfig) (esk now : List Nat) (sender : Nat)
    (cookie : Option (List Nat))
    (hpk : receiver.public_key = peer.key)
    (h1 : dh receiver.private_key (pubKey esk) = dh esk peer.key)
    (h2 : dh receiver.private_key initiator.public_key = dh initiator.private_key peer.key) :
    ∃ d : HandshakeInit × HandshakeState,
      decrypt_handshake_init (encrypt_handshake_init hs initiator peer esk now sender cookie).1 hs receiver = Except.ok d
        ∧ d.1.static_key.msg = initiator.public_key
        ∧ d.1.timestamp.msg = now
        ∧ d.2 = (encrypt_handshake_init hs initiator peer esk now sender cookie).2 := by
  unfold encrypt_handshake_init decrypt_handshake_init
  simp only [HandshakeState.mix_key_dh, hpk, h1, h2]
  simp only [decrypt_encrypt_and_hash]
  simp only [h2]
  simp only [decrypt_encrypt_and_hash]
  exact ⟨_, rfl, rfl, rfl, rfl⟩

/-! ## The Montgomery ladder on the all-zero u-coordinate (no
contributory check exists in the code, so these lemmas compute what the
code derives keys from). -/

theorem powModAux_zero_base (f e p : Nat) (h : e % 2 = 1) :
    powModAux 0 e p (f + 1) = 0 := by
  have he : e ≠ 0 := by omega
  simp only [powModAux, if_neg he, h, if_pos, Nat.mul_zero, Nat.zero_mod]

theorem finv_zero : finv 0 = 0 := by
  have : (p25519 - 2) % 2 = 1 := by decide
  exact powModAux_zero_base 259 (p25519 - 2) p25519 this

theorem sq_neg_mod (r : Nat) (hr : r < p25519) :
    ((p25519 - r) % p25519 * ((p25519 - r) % p25519)) % p25519 = r * r % p25519 := by
  rcases Nat.eq_zero_or_pos r with h0 | hpos
  · subst h0; simp
  · have hlt : p25519 - r < p25519 := by omega
    rw [Nat.mod_eq_of_lt hlt]
    have hid : (p25519 - r) * (p25519 - r) + p25519 * (2 * r) = p25519 * p25519 + r * r := by
      have hr2 : r ≤ p25519 := Nat.le_of_lt hr
      zify [hr2]; ring
    calc ((p25519 - r) * (p25519 - r)) % p25519
        = ((p25519 - r) * (p25519 - r) + p25519 * (2 * r)) % p25519 := by
          rw [Nat.add_mul_mod_self_left]
      _ = (p25519 * p25519 + r * r) % p25519 := by rw [hid]
      _ = (r * r + p25519 * p25519) % p25519 := by rw [Nat.add_comm]
      _ = r * r % p25519 := by rw [Nat.add_mul_mod_self_left]

theorem p25519_pos : 0 < p25519 := by decide

theorem fadd_zero_right (a : Nat) : fadd a 0 = a % p25519 := by simp [fadd]

theorem fadd_zero_left (a : Nat) : fadd 0 a = a % p25519 := by simp [fadd]

theorem fsub_zero_right (a : Nat) : fsub a 0 = a % p25519 := by
  simp [fsub, Nat.add_mod_right]

theorem fsub_zero_left (a : Nat) : fsub 0 a = (p25519 - a % p25519) % p25519 := by
  simp [fsub]

theorem fsub_self_lt (a : Nat) (h : a < p25519) : fsub a a = 0 := by
  unfold fsub
  rw [Nat.mod_eq_of_lt h]
  have : a + p25519 - a = p25519 := by omega
  rw [this, Nat.mod_self]

theorem fmul_zero_left (b : Nat) : fmul 0 b = 0 := by simp [fmul]

theorem fmul_lt (a b : Nat) : fmul a b < p25519 := Nat.mod_lt _ p25519_pos

theorem ladderPair_zero (cx cz : Nat) (h : cz = 0 ∨ cx = 0)
    (bx : cx < p25519) (bz : cz < p25519) :
    fsub (fmul (fadd cx cz) (fadd cx cz)) (fmul (fsub cx cz) (fsub cx cz)) = 0 := by
  rcases h with h | h <;> subst h
  · rw [fadd_zero_right, fsub_zero_right]
    exact fsub_self_lt _ (fmul_lt _ _)
  · rw [fadd_zero_left, fsub_zero_left]
    have hmod : cz % p25519 = cz := Nat.mod_eq_of_lt bz
    rw [hmod]
    have hbb : fmul ((p25519 - cz) % p25519) ((p25519 - cz) % p25519) = fmul cz cz := by
      unfold fmul
      exact sq_neg_mod cz bz
    rw [hbb]
    exact fsub_self_lt _ (fmul_lt _ _)

theorem ladderStep_zero (x2 z2 x3 z3 : Nat) (sw kt : Bool)
    (h2 : z2 = 0 ∨ x2 = 0) (h3 : z3 = 0 ∨ x3 = 0)
    (b2 : x2 < p25519) (bz2 : z2 < p25519) (b3 : x3 < p25519) (bz3 : z3 < p25519) :
    (ladderStep 0 (x2, z2, x3, z3, sw) kt).2.1 = 0
      ∧ (ladderStep 0 (x2, z2, x3, z3, sw) kt).2.2.2.1 = 0
      ∧ (ladderStep 0 (x2, z2, x3, z3, sw) kt).1 < p25519
      ∧ (ladderStep 0 (x2, z2, x3, z3, sw) kt).2.2.1 < p25519
      ∧ (ladderStep 0 (x2, z2, x3, z3, sw) kt).2.2.2.2 = kt := by
  unfold ladderStep
  cases hxor : Bool.xor sw kt
  · simp only [hxor, Bool.false_eq_true, if_false]
    refine ⟨?_, ?_, fmul_lt _ _, fmul_lt _ _, by trivial⟩
    · simp only [ladderPair_zero x2 z2 h2 b2 bz2, fmul_zero_left]
    · exact fmul_zero_left _
  · simp only [hxor, if_true]
    refine ⟨?_, ?_, fmul_lt _ _, fmul_lt _ _, by trivial⟩
    · simp only [ladderPair_zero x3 z3 h3 b3 bz3, fmul_zero_left]
    · exact fmul_zero_left _

theorem ladderFold_zero (ts : List Nat) :
    ∀ (k : Nat) (st : Nat × Nat × Nat × Nat × Bool), LadderInv st →
      LadderInv (ladderFold 0 k st ts) := by
  induction ts with
  | nil => intro k st h; exact h
  | cons t ts ih =>
      intro k st h
      obtain ⟨x2, z2, x3, z3, sw⟩ := st
      obtain ⟨h2, h3, b2, bz2, b3, bz3⟩ := h
      have hstep := ladderStep_zero x2 z2 x3 z3 sw (k.testBit t) h2 h3 b2 bz2 b3 bz3
      show LadderInv (ladderFold 0 k (ladderStep 0 (x2, z2, x3, z3, sw) (k.testBit t)) ts)
      apply ih
      rcases hres : ladderStep 0 (x2, z2, x3, z3, sw) (k.testBit t) with ⟨a, b, c, d, s⟩
      rw [hres] at hstep
      simp only at hstep
      obtain ⟨hb, hd, ha, hc, _⟩ := hstep
      exact ⟨Or.inl hb, Or.inl hd, ha, by rw [hb]; exact p25519_pos, hc,
        by rw [hd]; exact p25519_pos⟩

theorem ladderFinish_zero (st : Nat × Nat × Nat × Nat × Bool) (h : LadderInv st) :
    ladderFinish st = 0 := by
  obtain ⟨x2, z2, x3, z3, sw⟩ := st
  obtain ⟨h2, h3, _, _, _, _⟩ := h
  unfold ladderFinish
  cases sw
  · simp only [Bool.false_eq_true, if_false]
    rcases h2 with h | h
    · rw [h, finv_zero]; simp [fmul]
    · rw [h]; exact fmul_zero_left _
  · simp only [if_true]
    rcases h3 with h | h
    · rw [h, finv_zero]; simp [fmul]
    · rw [h]; exact fmul_zero_left _

set_option maxRecDepth 8192 in
theorem montLadder_zero (k : Nat) : montLadder k 0 = 0 := by
  unfold montLadder
  simp only [Nat.zero_mod]
  apply ladderFinish_zero
  apply ladderFold_zero
  exact ⟨Or.inl rfl, Or.inr rfl, by decide, p25519_pos, p25519_pos, by decide⟩

theorem dh_zero_point (sk : List Nat) :
    dh sk (List.replicate 32 0) = List.replicate 32 0 := by
  unfold dh x25519
  rw [show decodeU (List.replicate 32 0) = 0 from by decide]
  rw [montLadder_zero]
  decide

/-! ## Cookie lemmas -/

theorem toLE_length (len n : Nat) : (toLE n len).length = len := by
  induction len generalizing n with
  | zero => rfl
  | succ l ih => simp [toLE, ih]

/-- `new_cookie` never produces a cookie: the port `copy_from_slice`
panics on the 4-byte tail of the 20-byte buffer. -/
theorem new_cookie_none (cs : CookieState) (addr : SocketAddr) :
    cs.new_cookie addr = none := by
  unfold CookieState.new_cookie CookieState.cookieBuffer
  rcases h : CookieState.ipStage addr with _ | a1
  · rfl
  · simp [copySlice, toLE_length]

/-! ## Segmented evaluation of the Montgomery ladder

Concrete X25519 values are certified in four 64-step segments so that each
kernel evaluation stays shallow. -/

theorem ladderFold_append (x k : Nat) (st : Nat × Nat × Nat × Nat × Bool)
    (l1 l2 : List Nat) :
    ladderFold x k st (l1 ++ l2) = ladderFold x k (ladderFold x k st l1) l2 := by
  simp [ladderFold, List.foldl_append]

theorem montLadder_eval (k x x0 : Nat) (a b c d : Nat × Nat × Nat × Nat × Bool)
    (res : Nat) (hx : x % p25519 = x0)
    (h1 : ladderFold x0 k (1, 0, x0, 1, false) (((List.range 255).reverse).take 64) = a)
    (h2 : ladderFold x0 k a ((((List.range 255).reverse).drop 64).take 64) = b)
    (h3 : ladderFold x0 k b (((((List.range 255).reverse).drop 64).drop 64).take 64) = c)
    (h4 : ladderFold x0 k c (((((List.range 255).reverse).drop 64).drop 64).drop 64) = d)
    (hr : ladderFinish d = res) :
    montLadder k x = res := by
  unfold montLadder
  rw [hx]
  conv_lhs => rw [← List.take_append_drop 64 ((List.range 255).reverse)]
  rw [ladderFold_append, h1]
  conv_lhs => rw [← List.take_append_drop 64 (((List.range 255).reverse).drop 64)]
  rw [ladderFold_append, h2]
  conv_lhs => rw [← List.take_append_drop 64 ((((List.range 255).reverse).drop 64).drop 64)]
  rw [ladderFold_append, h3]
  rw [h4, hr]

/-! Concrete key material for the witnesses: the responder private key is
32 bytes of 0x02, the initiator static private key 32 bytes of 0x01, the
initiator ephemeral 32 bytes of 0x11. -/

set_option maxRecDepth 200000 in
theorem pubKey_wEskI : pubKey wEskI = wEpkI := by
  unfold pubKey x25519
  rw [montLadder_eval (clampScalar wEskI) (decodeU (toLE 9 32)) 9
    (26424345649046761788256596730233595505380619607297748864066159079559150103717, 11449222143093857913978124988828744321217155185399988540689405642501874612273, 50587068844366986580380761382470751917384598775593067636329258545844166274135, 49731224266009964845305549624661596900059053807340765311701268354224810505333, false)
    (36496079938315837803325907751945815578727570407234978624043753450108440231718, 50089102491323259127263983979008183678506109441000229897578643159875191093789, 2307075502930708383229329259723456304203149516787830410789598987055357939834, 20107111262926896323440713135049098568232096302173055639173195629902792097387, false)
    (51752745384024136457553720107940565462789866601634739835152490884219198720185, 54360131761108994730245601017787133781354459100838600520033457867287570871753, 9421159119287140034074332915775135519209003443682754379852440041333953331960, 8812369622769987529693554839984959695800811965601091820080427913385326303033, false)
    (3276734035571176676563341365266150905804056000354033215478525353782940107324, 10425680348824408359206739138354374381956612682379825413830253031337393780298, 46270831929497013960463128626665541057079178893651997769975373738842958044882, 26762474989445994161683453330363008281518964895916443799802817915252365384254, false)
    8706964969151656852030624105552692079253703992755607796162724326647234842235
    (by decide) (by decide) (by decide) (by decide) (by decide) (by decide)]
  decide

set_option maxRecDepth 200000 in
theorem dh_wSkR_wEpkI : dh wSkR wEpkI = wSsES := by
  unfold dh x25519
  rw [montLadder_eval (clampScalar wSkR) (decodeU wEpkI)
    8706964969151656852030624105552692079253703992755607796162724326647234842235
    (25028380344015161976083204142537340183005095842457727904067768748938263525626, 31869357960988553345389344992437213352437420459318809386578878540058499431058, 5786875303531951755820833708945326977262612199844459035056428611872710954449, 11817109272781915827984130125909826520846003711050996521803732570324896918292, false)
    (5461422064141041768630910058548230978996931212878618862064914521413176112811, 10855102601190662846311354578573304036115617983659116007624330630728793989245, 3951867279967756371914227223255432817641767205220951564638206314772747372874, 39433426467092663910313780720922825543093320305560930633082942881048121857882, false)
    (2296702610708291996052119061203216594889600392660166247438256571556727586422, 54066671867740165335057765284881655408066576283801798629330229828523575801220, 26924681560057373991045419534147265427163583070717905508333728220747378544403, 1599404412970315453850279079536456453935181142035182588257451329650983512010, false)
    (16979771840274125748813339182844761631210712876625171592562694827892549577327, 24896047896278619728896897428607184412630006000864369757820763302241678789377, 38733283943191506733704299897459715192436177549550504197875857195815866824018, 45518237676117961624458914819762243148414473217931191756453760710198640716679, false)
    55619755264454957852571464025414680700517963001310791605610145610509944685386
    (by decide) (by decide) (by decide) (by decide) (by decide) (by decide)]
  decide

set_option maxRecDepth 200000 in
theorem dh_wEskI_wPkR : dh wEskI wPkR = wSsES := by
  unfold dh x25519
  rw [montLadder_eval (clampScalar wEskI) (decodeU wPkR)
    40477307152345293097440037870896525068212056681688608823036027849291427646926
    (43500632721828895449158829486031078460779839777192311035418052463649794150808, 33435888608561529538742651489931048698878741450844541395571441686716547362902, 24358415586701979609021973474935542930048653178250092373192608183875270543285, 23130301949479001175492888831363597222599329860689789834904465494061063030053, false)
    (49679125929757378292613411282300869717173171766860628040331992161016557541046, 6837358932312478190309120685761127393908564583792040618238428413750806558284, 30326666525885026114598303225127529528141942475093999083683515732093224570308, 33327736774351672538954029154147725231453348595054686464981919345762462786710, false)
    (4132726891146926411723979620779280764297480607093337522243838550543870208146, 18375144658589584486331128718814107126557089233641361021251410553703728121913, 14156113894125920242505177617290227868166810100157679255048821278183551707028, 50473196994777118749196666998066390571059596154514988290425214387542232152241, false)
    (55386099194931266875236431995452140492599332029410399388254445714243510005330, 39473485767428559467126247310285514181129096190333497087154951472783219301141, 24487418131899260161852011579692111692612506251109450695211370056579451702741, 30785145430355379541383017964803589748998383476365964922109943082903861034356, false)
    55619755264454957852571464025414680700517963001310791605610145610509944685386
    (by decide) (by decide) (by decide) (by decide) (by decide) (by decide)]
  decide

set_option maxRecDepth 200000 in
theorem dh_wSkR_wPkI : dh wSkR wPkI = wSsSS := by
  unfold dh x25519
  rw [montLadder_eval (clampScalar wSkR) (decodeU wPkI)
    4358756744656299921611720742713659245005038656318957406234335445765305065636
    (1740109334317479094370326032111424442354025433736206618225682620634178579368, 37077410798529684671061287004521741006208686323294766152747782969997789085560, 4156507505494172881524200769705599364717949630171913315005805623596320043812, 44081094725494538740391428734122791666417400233721113834081426106659433738451, false)
    (6039247626393201331236048145958741797653013286627755232182600828647699214294, 21029864505601570403449940204698209801221998438057663315454044643552803618971, 23897291042551285048914912572329035880158041613946409148610229007030933910726, 10156283917884830670028027615969798553998620693432371241877571613370095051838, false)
    (8191185817470078232563338409004229215954323667669455567073719548665938291133, 19331523098543618463245131217481249235724415437555687668462321548882092519007, 12632814768334977075908384263847080533161680093527557668924900454158008268996, 46273575014354255765675802934225224480069597959475127498908064146913155423414, false)
    (32108815708701970635079507272399536350892978259053894207060372844338864922650, 32746547937465847951190517549212439842463440711342025274379365929586515538046, 47868115078122737486063663872215269156148090060085249914018247270923676280796, 44033180103538349492155882303332791350565972216774955467816011943088851922688, false)
    37870191047867657583432095346284531764084119257177089722230817295622394795822
    (by decide) (by decide) (by decide) (by decide) (by decide) (by decide)]
  decide

set_option maxRecDepth 200000 in
theorem dh_wSkI_wPkR : dh wSkI wPkR = wSsSS := by
  unfold dh x25519
  rw [montLadder_eval (clampScalar wSkI) (decodeU wPkR)
    40477307152345293097440037870896525068212056681688608823036027849291427646926
    (24361067260122055270419686339949630016542120852899022438504309830427469675407, 22819755073871851167957295137196290833306141730290081940327881335889297227825, 71116238197656442175368977595064604094098645065027641526491860592736364215, 34673987648223634304682136553229270424017593100522025896434422189023516087922, false)
    (21604170924610222131829971282197754710415632081595154550719382967952596520154, 53357467005358609853065999111835118714304269379681466744188069710407440902603, 50368126180068406994029893521182578338069797222225436377557880132450021913446, 36414502813113041699472823682252398400002509502132274382448312178152063861472, false)
    (7557126070253090277352722967461622833261361339944110703730119807992334161429, 51758857456719724289481978020023911781401188474783162368013029193358138140749, 41754553117267526784618540519267795351358144452402119144387877569918974610314, 47275562934839135795802444864480980544663726131432589110928688374288398864118, false)
    (15853047390286127556934813310808550941520497678663190547097789190551388119051, 18200940293400772745499061044747611154177373806667085730589211276163924141217, 34170282221313809773157378363161536445875243419778881234157232414005338797195, 10357212931459980562709821655025061631333368520693090878356317526696702879646, false)
    37870191047867657583432095346284531764084119257177089722230817295622394795822
    (by decide) (by decide) (by decide) (by decide) (by decide) (by decide)]
  decide

theorem dh_es_agree : dh wSkR wEpkI = dh wEskI wPkR := by
  rw [dh_wSkR_wEpkI, dh_wEskI_wPkR]

theorem dh_ss_agree : dh wSkR wPkI = dh wSkI wPkR := by
  rw [dh_wSkR_wPkI, dh_wSkI_wPkR]

/-! ## Fidelity anchors

These theorems pin the embedded primitives to published test vectors and
to the repository's own constants (mirroring its
`construction_identifier` test). -/

set_option maxRecDepth 100000 in
/-- The embedded BLAKE2s reproduces the repository's `CONSTRUCTION_HASH`
and `IDENTIFIER_HASH` constants (the repo's own `construction_identifier`
test asserts exactly this of the `blake2` crate). -/
theorem construction_identifier_anchor :
    hash constructionLabel = CONSTRUCTION_HASH
      ∧ hash (CONSTRUCTION_HASH ++ identifierLabel) = IDENTIFIER_HASH :=
  ⟨by decide, by decide⟩

set_option maxRecDepth 200000 in
/-- The embedded X25519 reproduces the RFC 7748 section 6.1 public key of
Alice (`77076d0a…` ↦ `8520f009…`). -/
theorem x25519_rfc7748_anchor :
    pubKey
      [119, 7, 109, 10, 115, 24, 165, 125, 60, 22, 193, 114, 81, 178, 102, 69,
       223, 76, 47, 135, 235, 192, 153, 42, 177, 119, 251, 165, 29, 185, 44, 42]
      = [133, 32, 240, 9, 137, 48, 167, 84, 116, 139, 125, 220, 180, 62, 247, 90,
         13, 191, 58, 13, 38, 56, 26, 244, 235, 164, 169, 142, 170, 155, 78, 106] := by
  unfold pubKey x25519
  rw [montLadder_eval _ _ 9
    (7946430144888568016469106978475105806101687441561060202760473385853864430846, 5161654922299001698347956039374039285751279481504870377560548669181507815039, 55019853892338629428247387731956971526250493802884976216103265686054847419320, 2037438412955443526024315992306120588103323739237831467242504729666763920645, false)
    (27156750204279608270199695183979573293872050264619214922509236218006532466033, 50106157195309255107246648547873291532431211327229371341998342776374730029761, 14905994120804210314562837647832941336688171809791783576918212568512747853691, 52948318736264266202470075022325809523264971252210075437418363538728266437135, false)
    (26702048919987572447550046589723249281947100177060269832916656096241118132550, 14542924507873242073855259021938057178595698761368363164984682362120760058038, 21427127178538704411203588724652556298460369616220232011895955080648203521225, 48103082956402016516107383544525591383095838682135985543966347808391905589222, false)
    (38726219401558270371658911892975637102186981392795104342759655003210469224005, 7321677318838737788311020855093973614157948658582669376334993969601219174652, 40875348078711518825453199176824291188526028641331675495101928122680462732539, 34667235194362678008741543340083995994916256223087584858766167549354921345115, false)
    48084050389777770101701157326923977117307187144965043058462938058489685090437
    (by decide) (by decide) (by decide) (by decide) (by decide) (by decide)]
  decide

/-! ## Witness material shared by the claims -/

/-! ## The claims -/

/-- C1 (code bug, `src/src/lib.rs` line 290): spec step 7 decrypts the
`enc_timestamp` field, but `FirstMessage::process` decrypts
`self.static_key` a second time and never reads `self.timestamp`: its
result is identical on two messages that differ only in the timestamp
field, so the field consumed at step 7 is not the timestamp field.
(`decrypt_handshake_init` in `rustyguard-crypto` does decrypt
`init.timestamp` there.) -/
theorem C1_process_ignores_timestamp_field (sender : Nat) (eph : List Nat)
    (sk ts1 ts2 : Encrypted) (config : Config) :
    FirstMessage.process
        { sender := sender, ephemeral_key := eph, static_key := sk, timestamp := ts1 } config
      = FirstMessage.process
        { sender := sender, ephemeral_key := eph, static_key := sk, timestamp := ts2 } config := rfl

/-- C2 (amended): when `decrypt_and_hash` fails, the chain is unchanged,
but the hash has already been mixed with the ciphertext — the state is
NOT left unmodified; the mix-hash of the ciphertext is exactly the
modification. -/
theorem C2_decrypt_and_hash_error_state (e : Encrypted) (s : HandshakeState)
    (k : List Nat) (_h : (Encrypted.decrypt_and_hash e s k).1 = none) :
    (Encrypted.decrypt_and_hash e s k).2.chain = s.chain
      ∧ (Encrypted.decrypt_and_hash e s k).2.hash = hash (s.hash ++ e.bytes) :=
  ⟨rfl, rfl⟩

set_option maxRecDepth 100000 in
/-- C2 counterexample: this decryption fails, yet the handshake state
after the call differs from the state before it. -/
theorem C2_state_modified_on_error_cx :
    (Encrypted.decrypt_and_hash c2E HandshakeState.start c2K).1 = none
      ∧ (Encrypted.decrypt_and_hash c2E HandshakeState.start c2K).2 ≠ HandshakeState.start := by
  exact ⟨by decide, by decide⟩

set_option maxRecDepth 100000 in
/-- C2 witness: the amended statement at the failing input above. -/
theorem C2_decrypt_and_hash_error_state_witness :
    (Encrypted.decrypt_and_hash c2E HandshakeState.start c2K).1 = none
      ∧ ((Encrypted.decrypt_and_hash c2E HandshakeState.start c2K).2.chain
            = HandshakeState.start.chain
        ∧ (Encrypted.decrypt_and_hash c2E HandshakeState.start c2K).2.hash
            = hash (HandshakeState.start.hash ++ c2E.bytes)) :=
  ⟨by decide, C2_decrypt_and_hash_error_state c2E HandshakeState.start c2K (by decide)⟩

/-- C4 (amended): no Curve25519 contributory check exists: for EVERY
secret key the X25519 shared secret with the all-zero public key is
all-zero, and `mix_key_dh` has no error path — it derives the new chain
and message key from that all-zero secret. -/
theorem C4_mix_key_dh_no_contributory_check (s : HandshakeState) (sk : List Nat) :
    dh sk (List.replicate 32 0) = List.replicate 32 0
      ∧ s.mix_key_dh sk (List.replicate 32 0)
          = ({ s with chain := (hkdf2 s.chain (List.replicate 32 0)).1 },
             (hkdf2 s.chain (List.replicate 32 0)).2) := by
  refine ⟨dh_zero_point sk, ?_⟩
  unfold HandshakeState.mix_key_dh
  rw [dh_zero_point]

/-- C4 counterexample: at the concrete secret key 32 × 0x02 and the zero
public key, the shared secret is all-zero and key derivation proceeds
with no rejection (the result is the plain HKDF of the zero secret). -/
theorem C4_zero_dh_accepted_cx :
    dh wSkR (List.replicate 32 0) = List.replicate 32 0
      ∧ HandshakeState.start.mix_key_dh wSkR (List.replicate 32 0)
          = ({ chain := (hkdf2 CONSTRUCTION_HASH (List.replicate 32 0)).1,
               hash := IDENTIFIER_HASH },
             (hkdf2 CONSTRUCTION_HASH (List.replicate 32 0)).2) := by
  refine ⟨dh_zero_point wSkR, ?_⟩
  unfold HandshakeState.mix_key_dh
  rw [dh_zero_point]
  rfl

/-- C6: `hkdf` satisfies the HKDF recurrence over HMAC-BLAKE2s for
N ∈ {1, 2, 3}: with `t0 = hmac(key, input)`, the outputs are
`t1 = hmac(t0, 0x01)`, `t2 = hmac(t0, t1 ‖ 0x02)`,
`t3 = hmac(t0, t2 ‖ 0x03)`. -/
theorem C6_hkdf_recurrence (key msg : List Nat) :
    hkdf key msg 1 = [hmac (hmac key msg) [1]]
  ∧ hkdf key msg 2
      = [hmac (hmac key msg) [1],
         hmac (hmac key msg) (hmac (hmac key msg) [1] ++ [2])]
  ∧ hkdf key msg 3
      = [hmac (hmac key msg) [1],
         hmac (hmac key msg) (hmac (hmac key msg) [1] ++ [2]),
         hmac (hmac key msg)
           (hmac (hmac key msg) (hmac (hmac key msg) [1] ++ [2]) ++ [3])] :=
  ⟨rfl, rfl, rfl⟩

/-- C7 (amended): encrypting then decrypting under the same key from the
same initial state succeeds, returns the plaintext, and leaves the two
handshake states equal.  (Decryption under a DIFFERENT key is not
guaranteed to fail: see the counterexample.) -/
theorem C7_encrypt_decrypt_roundtrip (k m : List Nat) (s : HandshakeState) :
    (Encrypted.decrypt_and_hash (Encrypted.encrypt_and_hash m s k).1 s k).1 = some m
  ∧ (Encrypted.decrypt_and_hash (Encrypted.encrypt_and_hash m s k).1 s k).2
      = (Encrypted.encrypt_and_hash m s k).2 := by
  have h := decrypt_encrypt_and_hash m s k
  exact ⟨by rw [h], by rw [h]⟩

/-- C8 (amended): the `src` draft's `Sessions::cookie` is exactly the
spec's `Mac(CookieSecret, src_ip ‖ src_port)`; `CookieState::new_cookie`
never produces a cookie at all (its port `copy_from_slice` panics:
2-byte source into the 4-byte `a[16..20]`). -/
theorem C8_cookie_computations (s : Sessions) (addr : SocketAddr) (cs : CookieState) :
    Sessions.cookie s addr = specCookie s.random_secret addr
      ∧ cs.new_cookie addr = none :=
  ⟨rfl, new_cookie_none cs addr⟩

set_option maxRecDepth 100000 in
/-- C8 counterexample: under the same secret and address, the draft
computes a 16-byte cookie while `new_cookie` produces none (panic), so
the two computations do not produce the same 16-byte value. -/
theorem C8_cookie_disagreement_cx :
    CookieState.new_cookie { key := List.replicate 32 5 } c8Addr = none
  ∧ Sessions.cookie c8Sess c8Addr = specCookie (List.replicate 32 5) c8Addr
  ∧ (Sessions.cookie c8Sess c8Addr).length = 16 :=
  ⟨new_cookie_none _ _, rfl, by decide⟩

/-- C10 (amended): `new_cookie` cannot distinguish an IPv4 address from
its zero-extension to IPv6 — the buffer after the IP copy is identical —
and it produces the same outcome for both; but that outcome is a panic
(`none`), not a pair of identical cookies. -/
theorem C10_v4_v6_indistinguishable (key : List Nat) (a b c d p : Nat) :
    CookieState.ipStage { ip := IpAddr.V4 [a, b, c, d], port := p }
      = CookieState.ipStage
          { ip := IpAddr.V6 [a, b, c, d, 0, 0, 0, 0, 0, 0, 0, 0, 0, 0, 0, 0], port := p }
  ∧ CookieState.new_cookie { key := key } { ip := IpAddr.V4 [a, b, c, d], port := p }
      = CookieState.new_cookie { key := key }
          { ip := IpAddr.V6 [a, b, c, d, 0, 0, 0, 0, 0, 0, 0, 0, 0, 0, 0, 0], port := p } := by
  constructor
  · rfl
  · rw [new_cookie_none, new_cookie_none]

/-- C10 counterexample: at a concrete secret and IPv4 address no cookie
is returned at all (the port copy panics), so `new_cookie` does not
return identical cookies for the two addresses — it returns none. -/
theorem C10_no_cookie_returned_cx :
    CookieState.new_cookie { key := List.replicate 32 9 }
      { ip := IpAddr.V4 [1, 2, 3, 4], port := 8080 } = none :=
  new_cookie_none _ _

/-- mac1 covers only the bytes before the `mac1` field, so changing
`mac2` does not affect its verification. -/
theorem verify_mac1_ignores_mac2 (m : HandshakeInit) (m2 key : List Nat) :
    HandshakeInit.verify_mac1 { m with mac2 := m2 } key = m.verify_mac1 key := rfl

/-- Off-load, a message with a valid mac1 continues; mac2 is never read. -/
theorem verify_cont_of_mac1_ok (m : HandshakeInit) (cfg : StaticInitiatorConfig)
    (cs : CookieState) (addr : SocketAddr)
    (h : m.verify_mac1 cfg.mac1_key = Except.ok ()) :
    m.verify cfg false cs addr = some (Except.ok (VerifyFlow.cont m)) := by
  unfold HandshakeInit.verify
  rw [h]
  rfl

set_option maxRecDepth 100000 in
/-- C3 (code bug): mac1 verification is as claimed — an invalid mac1
yields `Rejected` loaded or not, and a valid mac1 off-load continues
without examining mac2 — but on the under-load path the code panics
inside `new_cookie` (modelled `none`) before mac2 is compared, instead of
returning the freshly computed cookie for a Cookie Reply. -/
theorem C3_mac_verification_paths :
    HandshakeInit.verify c3Bad c3Cfg false c3Cs c3Addr
        = some (Except.error CryptoError.Rejected)
  ∧ HandshakeInit.verify c3Bad c3Cfg true c3Cs c3Addr
        = some (Except.error CryptoError.Rejected)
  ∧ HandshakeInit.verify c3Good c3Cfg false c3Cs c3Addr
        = some (Except.ok (VerifyFlow.cont c3Good))
  ∧ (∀ m2 : List Nat, HandshakeInit.verify { c3Good with mac2 := m2 } c3Cfg false c3Cs c3Addr
        = some (Except.ok (VerifyFlow.cont { c3Good with mac2 := m2 })))
  ∧ HandshakeInit.verify c3Good c3Cfg true c3Cs c3Addr = none :=
  ⟨by decide, by decide, by decide,
   fun m2 =>
    verify_cont_of_mac1_ok { c3Good with mac2 := m2 } c3Cfg c3Cs c3Addr
      (by rw [verify_mac1_ignores_mac2]; decide),
   by decide⟩

/-- C5 (amended): handshake-init processing performs no timestamp
monotonicity check: the decrypted timestamp value is discarded, the error
type has no `Replay` variant at all, and an Init whose timestamp is less
than or equal to a previously accepted one decrypts successfully exactly
like the first. -/
theorem C5_no_timestamp_check (hs : HandshakeState)
    (initiator receiver : StaticInitiatorConfig) (peer : StaticPeerConfig)
    (esk ts1 ts2 : List Nat) (sender1 sender2 : Nat) (c1 c2 : Option (List Nat))
    (hpk : receiver.public_key = peer.key)
    (h1 : dh receiver.private_key (pubKey esk) = dh esk peer.key)
    (h2 : dh receiver.private_key initiator.public_key = dh initiator.private_key peer.key)
    (_hts : tai64nLe ts2 ts1) :
    (decrypt_handshake_init
        (encrypt_handshake_init hs initiator peer esk ts1 sender1 c1).1 hs receiver).isOk = true
  ∧ (decrypt_handshake_init
        (encrypt_handshake_init hs initiator peer esk ts2 sender2 c2).1 hs receiver).isOk = true
  ∧ ∀ e : CryptoError, e = CryptoError.DecryptionError ∨ e = CryptoError.Rejected := by
  obtain ⟨d1, hd1, -, -, -⟩ :=
    decrypt_encrypt_handshake_init hs initiator receiver peer esk ts1 sender1 c1 hpk h1 h2
  obtain ⟨d2, hd2, -, -, -⟩ :=
    decrypt_encrypt_handshake_init hs initiator receiver peer esk ts2 sender2 c2 hpk h1 h2
  refine ⟨by rw [hd1]; rfl, by rw [hd2]; rfl, ?_⟩
  intro e
  cases e
  · exact Or.inl rfl
  · exact Or.inr rfl

/-- C5 witness: the amended statement at the scenario keys, with equal
timestamps (so the second Init replays a timestamp that is ≤ the first). -/
theorem C5_no_timestamp_check_witness :
    tai64nLe wTs wTs
  ∧ ((decrypt_handshake_init
        (encrypt_handshake_init HandshakeState.start wInitCfg wPeerR wEskI wTs 7 none).1
        HandshakeState.start wCfgR).isOk = true
    ∧ (decrypt_handshake_init
        (encrypt_handshake_init HandshakeState.start wInitCfg wPeerR wEskI wTs 8 none).1
        HandshakeState.start wCfgR).isOk = true
    ∧ ∀ e : CryptoError, e = CryptoError.DecryptionError ∨ e = CryptoError.Rejected) :=
  ⟨by decide,
   C5_no_timestamp_check HandshakeState.start wInitCfg wCfgR wPeerR wEskI wTs wTs 7 8
     none none rfl (by rw [pubKey_wEskI]; exact dh_es_agree) dh_ss_agree (by decide)⟩

/-- C5 counterexample: this well-formed Init (scenario keys) is accepted
by `decrypt_handshake_init`.  The code stores no per-peer timestamp and
processing is a pure function of (message, state, config), so replaying
this very Init is this very computation: the replay is accepted again
instead of failing with `Replay` (no such error exists in the code). -/
theorem C5_replay_accepted_cx :
    (decrypt_handshake_init
        (encrypt_handshake_init HandshakeState.start wInitCfg wPeerR wEskI wTs 7 none).1
        HandshakeState.start wCfgR).isOk = true := by
  obtain ⟨d, hd, -, -, -⟩ :=
    decrypt_encrypt_handshake_init HandshakeState.start wInitCfg wCfgR wPeerR wEskI wTs 7
      none rfl (by rw [pubKey_wEskI]; exact dh_es_agree) dh_ss_agree
  rw [hd]
  rfl

set_option maxRecDepth 1000000 in
/-- C7 counterexample: decrypting this sealed message under a DIFFERENT
key succeeds (ChaCha20-Poly1305 is not key-committing), so "decryption of
that ciphertext under a different key fails" is false. -/
theorem C7_wrong_key_decrypt_succeeds_cx :
    ((Encrypted.decrypt_and_hash
        (Encrypted.encrypt_and_hash c7m c7s (List.replicate 32 0)).1
        c7s (List.replicate 32 1)).1).isSome = true
  ∧ (List.replicate 32 0 : List Nat) ≠ List.replicate 32 1 :=
  ⟨by decide, by decide⟩

set_option maxRecDepth 100000 in
/-- C9: `recv_message` rejects unaligned buffers, buffers too short for
the type tag, and unknown type tags; an Init buffer is decoded only at
exactly 148 bytes; and the fixed layouts measure 144/88/60 bytes
(148/92/64 with the tag) at alignment 4. -/
theorem C9_recv_layout (s : Sessions) (alignRem : Nat) (buf : List Nat)
    (mp : MacProtectedFirst) :
    (alignRem ≠ 0 → s.recv_message alignRem buf = RecvResult.err Error.Unaligned)
  ∧ (alignRem = 0 → buf.length < 4 →
      s.recv_message alignRem buf = RecvResult.err Error.InvalidMessage)
  ∧ (alignRem = 0 → le32At buf 0 ≠ 1 → le32At buf 0 ≠ 2 → le32At buf 0 ≠ 3 →
      le32At buf 0 ≠ 4 → s.recv_message alignRem buf = RecvResult.err Error.InvalidMessage)
  ∧ (alignRem = 0 → le32At buf 0 = 1 → buf.length ≠ 148 →
      s.recv_message alignRem buf = RecvResult.err Error.InvalidMessage)
  ∧ (mp.WF → mp.bytes.length = macProtectedSize FirstMessage.size)
  ∧ macProtectedSize FirstMessage.size = 144
  ∧ macProtectedSize SecondMessage.size = 88
  ∧ CookieMessage.size = 60
  ∧ 4 + macProtectedSize FirstMessage.size = 148
  ∧ 4 + macProtectedSize SecondMessage.size = 92
  ∧ 4 + CookieMessage.size = 64
  ∧ leu32StructAlign = 4 := by
  refine ⟨?_, ?_, ?_, ?_, ?_, by decide, by decide, by decide, by decide, by decide,
    by decide, by decide⟩
  · intro h
    unfold Sessions.recv_message
    rw [if_pos h]
  · intro h0 hlen
    unfold Sessions.recv_message
    rw [if_neg (by omega), if_pos hlen]
  · intro h0 h1 h2 h3 h4
    unfold Sessions.recv_message
    rw [if_neg (by omega)]
    by_cases hlen : buf.length < 4
    · rw [if_pos hlen]
    · rw [if_neg hlen, if_neg h1, if_neg h2, if_neg h3, if_neg h4]
  · intro h0 hty hlen
    unfold Sessions.recv_message
    rw [if_neg (by omega)]
    by_cases hl : buf.length < 4
    · rw [if_pos hl]
    · rw [if_neg hl, if_pos hty, if_pos (by rw [List.length_drop]; omega)]
  · intro hwf
    obtain ⟨⟨he, hsm, hst, htm, htt⟩, hm1, hm2⟩ := hwf
    simp [MacProtectedFirst.bytes, FirstMessage.bytes, Encrypted.bytes, wordLE4,
      macProtectedSize, FirstMessage.size, he, hsm, hst, htm, htt, hm1, hm2]

set_option maxRecDepth 100000 in
/-- C9 witness: the layout statement at concrete buffers. -/
theorem C9_recv_layout_witness :
    Sessions.recv_message c8Sess 1 [] = RecvResult.err Error.Unaligned
  ∧ Sessions.recv_message c8Sess 0 [1, 0, 0] = RecvResult.err Error.InvalidMessage
  ∧ Sessions.recv_message c8Sess 0 [9, 0, 0, 0] = RecvResult.err Error.InvalidMessage
  ∧ Sessions.recv_message c8Sess 0 [1, 0, 0, 0] = RecvResult.err Error.InvalidMessage
  ∧ c9Mp.bytes.length = macProtectedSize FirstMessage.size :=
  ⟨(C9_recv_layout c8Sess 1 [] c9Mp).1 (by decide),
   (C9_recv_layout c8Sess 0 [1, 0, 0] c9Mp).2.1 (by decide) (by decide),
   (C9_recv_layout c8Sess 0 [9, 0, 0, 0] c9Mp).2.2.1 (by decide) (by decide) (by decide)
     (by decide) (by decide),
   (C9_recv_layout c8Sess 0 [1, 0, 0, 0] c9Mp).2.2.2.1 (by decide) (by decide) (by decide),
   (C9_recv_layout c8Sess 0 [] c9Mp).2.2.2.2.1 (by decide)⟩

end Rustyguard
